import Mathlib

open Real

noncomputable section

/-- Planar generalized vector (x, y, θ); mirrors the length-3 numpy arrays of the source. -/
structure Vec3 where
  x : ℝ
  y : ℝ
  z : ℝ

/-- Length-4 parameter-group vector (source groups `o`, `d`, `c` and the 4-wide gain diagonals). -/
structure Vec4 where
  b0 : ℝ
  b1 : ℝ
  b2 : ℝ
  b3 : ℝ

/-- Length-2 parameter-group vector (source group `g` and its gain diagonal). -/
structure Vec2 where
  g0 : ℝ
  g1 : ℝ

instance : Add Vec3 := ⟨fun a b => ⟨a.x + b.x, a.y + b.y, a.z + b.z⟩⟩

instance : Sub Vec3 := ⟨fun a b => ⟨a.x - b.x, a.y - b.y, a.z - b.z⟩⟩

instance : SMul ℝ Vec3 := ⟨fun r v => ⟨r * v.x, r * v.y, r * v.z⟩⟩

/-- The all-zero 3-vector, `np.zeros(3)`. -/
def Vec3.zero : Vec3 := ⟨0, 0, 0⟩

/-- Componentwise division by a scalar, numpy `v / r`. -/
def Vec3.sdiv (v : Vec3) (r : ℝ) : Vec3 := ⟨v.x / r, v.y / r, v.z / r⟩

/-- Componentwise `np.clip(v, lo, hi)` (numpy computes `minimum(maximum(v, lo), hi)`). -/
def Vec3.clip (v : Vec3) (lo hi : ℝ) : Vec3 :=
  ⟨min (max v.x lo) hi, min (max v.y lo) hi, min (max v.z lo) hi⟩

/-- Euclidean norm, `np.linalg.norm`. -/
def Vec3.norm (v : Vec3) : ℝ := Real.sqrt (v.x ^ 2 + v.y ^ 2 + v.z ^ 2)

instance : Add Vec4 := ⟨fun a b => ⟨a.b0 + b.b0, a.b1 + b.b1, a.b2 + b.b2, a.b3 + b.b3⟩⟩

instance : SMul ℝ Vec4 := ⟨fun r v => ⟨r * v.b0, r * v.b1, r * v.b2, r * v.b3⟩⟩

instance : Neg Vec4 := ⟨fun v => ⟨-v.b0, -v.b1, -v.b2, -v.b3⟩⟩

/-- The all-zero 4-vector, `np.zeros(4)`. -/
def Vec4.zero : Vec4 := ⟨0, 0, 0, 0⟩

instance : Add Vec2 := ⟨fun a b => ⟨a.g0 + b.g0, a.g1 + b.g1⟩⟩

instance : SMul ℝ Vec2 := ⟨fun r v => ⟨r * v.g0, r * v.g1⟩⟩

instance : Neg Vec2 := ⟨fun v => ⟨-v.g0, -v.g1⟩⟩

/-- The all-zero 2-vector, `np.zeros(2)`. -/
def Vec2.zero : Vec2 := ⟨0, 0⟩

/-- Product of a diagonal 4×4 matrix (given by its diagonal) with a 4-vector. -/
def diagMul4 (dgn v : Vec4) : Vec4 := ⟨dgn.b0 * v.b0, dgn.b1 * v.b1, dgn.b2 * v.b2, dgn.b3 * v.b3⟩

/-- Product of a diagonal 2×2 matrix (given by its diagonal) with a 2-vector. -/
def diagMul2 (dgn v : Vec2) : Vec2 := ⟨dgn.g0 * v.g0, dgn.g1 * v.g1⟩

/-- Dense 3×4 matrix (regressors `Y_o`, `Y_d`, `Y_c` of controller2.py). -/
structure Mat34 where
  m00 : ℝ
  m01 : ℝ
  m02 : ℝ
  m03 : ℝ
  m10 : ℝ
  m11 : ℝ
  m12 : ℝ
  m13 : ℝ
  m20 : ℝ
  m21 : ℝ
  m22 : ℝ
  m23 : ℝ

/-- Matrix sum of two 3×4 matrices (source: `block1h + block1c`). -/
def Mat34.add (a b : Mat34) : Mat34 :=
  ⟨a.m00 + b.m00, a.m01 + b.m01, a.m02 + b.m02, a.m03 + b.m03,
   a.m10 + b.m10, a.m11 + b.m11, a.m12 + b.m12, a.m13 + b.m13,
   a.m20 + b.m20, a.m21 + b.m21, a.m22 + b.m22, a.m23 + b.m23⟩

/-- Matrix–vector product `M @ v` for a 3×4 matrix. -/
def Mat34.mulVec (M : Mat34) (v : Vec4) : Vec3 :=
  ⟨M.m00 * v.b0 + M.m01 * v.b1 + M.m02 * v.b2 + M.m03 * v.b3,
   M.m10 * v.b0 + M.m11 * v.b1 + M.m12 * v.b2 + M.m13 * v.b3,
   M.m20 * v.b0 + M.m21 * v.b1 + M.m22 * v.b2 + M.m23 * v.b3⟩

/-- Transposed product `np.transpose(M) @ v` for a 3×4 matrix. -/
def Mat34.tmul (M : Mat34) (v : Vec3) : Vec4 :=
  ⟨M.m00 * v.x + M.m10 * v.y + M.m20 * v.z,
   M.m01 * v.x + M.m11 * v.y + M.m21 * v.z,
   M.m02 * v.x + M.m12 * v.y + M.m22 * v.z,
   M.m03 * v.x + M.m13 * v.y + M.m23 * v.z⟩

/-- Dense 3×2 matrix (regressor `Y_g` of controller2.py). -/
structure Mat32 where
  n00 : ℝ
  n01 : ℝ
  n10 : ℝ
  n11 : ℝ
  n20 : ℝ
  n21 : ℝ

/-- Transposed product `np.transpose(N) @ v` for a 3×2 matrix. -/
def Mat32.tmul (N : Mat32) (v : Vec3) : Vec2 :=
  ⟨N.n00 * v.x + N.n10 * v.y + N.n20 * v.z,
   N.n01 * v.x + N.n11 * v.y + N.n21 * v.z⟩

/-- Source `rot(t) @ v`: the matrix `[[cos t, sin t, 0], [-sin t, cos t, 0], [0, 0, 1]]`
applied to `v` (controller2.py, `AdaptiveController.rot`). -/
def rotMul (t : ℝ) (v : Vec3) : Vec3 :=
  ⟨cos t * v.x + sin t * v.y, -sin t * v.x + cos t * v.y, v.z⟩

/-- Source `Mhat_inv() @ F`: moment-arm correction matrix
`[[1,0,0],[0,1,0],[rhy_n, -rhx_n, 1]]` with `rhx_n = rhx cos θ + rhy sin θ`,
`rhy_n = -rhx sin θ + rhy cos θ`, applied to `F` (identical formula in both source files). -/
def mhatInvMul (rhx rhy th : ℝ) (F : Vec3) : Vec3 :=
  ⟨F.x, F.y, (-rhx * sin th + rhy * cos th) * F.x - (rhx * cos th + rhy * sin th) * F.y + F.z⟩

/-- Source `wrap_angles(z_new, z_curr, z_prev)` of controller2.py: shift `z_new` by ±2π toward
`z_curr` when they differ by at least `2π - wrap_tol`, then shift `z_prev` by ±2π toward `z_curr`
under the same test; `z_curr` is returned unchanged. -/
def wrap_angles (tol z_new z_curr z_prev : ℝ) : ℝ × ℝ × ℝ :=
  let zn := if |z_new - z_curr| ≥ 2 * π - tol then
      (if z_new < z_curr then z_new + 2 * π else z_new - 2 * π) else z_new
  let zp := if |z_curr - z_prev| ≥ 2 * π - tol then
      (if z_curr > z_prev then z_prev + 2 * π else z_prev - 2 * π) else z_prev
  (zn, z_curr, zp)

/-- Runtime exception of the Python interpreter relevant to this code. -/
inductive PyErr where
  | typeError

/-- Snapshot of the configuration store read by `getParams` (rospy parameters). -/
structure Config where
  o_mags : Vec4
  g_mags : Vec2
  d_mags : Vec4
  c_mags : Vec4
  L_lin : ℝ
  L_ang : ℝ
  Kd_lin : ℝ
  Kd_ang : ℝ
  Gamma : ℝ
  deadband : ℝ
  q_filt : ℝ
  dq_filt : ℝ
  offset_angle : ℝ
  moment_arm : Vec3
  v_max : ℝ
  m_init : ℝ
  J_init : ℝ
  wrap_tol : ℝ

/-- Mutable state of controller2.py's `AdaptiveController` (fields of `self`). -/
structure Ctrl where
  active : Bool
  q : Vec3
  q_raw : Vec3
  q_prev : Vec3
  dq : Vec3
  q_des : Vec3
  dq_des : Vec3
  ddq_des : Vec3
  tau : Vec3
  F : Vec3
  curr_arm : Vec3
  v_i : Vec3
  state_time : ℝ
  o : Vec4
  g : Vec2
  d : Vec4
  c : Vec4
  G_o : Vec4
  G_g : Vec2
  G_d : Vec4
  G_c : Vec4
  L_lin : ℝ
  L_ang : ℝ
  Kd_lin : ℝ
  Kd_ang : ℝ
  deadband : ℝ
  q_filt : ℝ
  dq_filt : ℝ
  offset_angle : ℝ
  moment_arm : Vec3
  v_max : ℝ
  wrap_tol : ℝ

/-- Source `L @ v` with `L = diag(L_lin, L_lin, L_ang)`. -/
def lMul (st : Ctrl) (v : Vec3) : Vec3 := ⟨st.L_lin * v.x, st.L_lin * v.y, st.L_ang * v.z⟩

/-- Source `Kd @ v` with `Kd = diag(Kd_lin, Kd_lin, Kd_ang)`. -/
def kdMul (st : Ctrl) (v : Vec3) : Vec3 := ⟨st.Kd_lin * v.x, st.Kd_lin * v.y, st.Kd_ang * v.z⟩

/-- Source `controllerReset`: zero `tau`, `F` and all four parameter groups. -/
def controllerReset (st : Ctrl) : Ctrl :=
  { st with tau := Vec3.zero, F := Vec3.zero,
            o := Vec4.zero, g := Vec2.zero, d := Vec4.zero, c := Vec4.zero }

/-- Source `getParams`: copy the configuration snapshot into the controller state
(gain diagonals `G_i = Gamma * diag(i_mags)`), and write the configured seeds into the
inertial estimates: `o[0] = m_init`, `o[1] = J_init`. -/
def getParams (st : Ctrl) (cfg : Config) : Ctrl :=
  { st with G_o := cfg.Gamma • cfg.o_mags, G_g := cfg.Gamma • cfg.g_mags,
            G_d := cfg.Gamma • cfg.d_mags, G_c := cfg.Gamma • cfg.c_mags,
            L_lin := cfg.L_lin, L_ang := cfg.L_ang,
            Kd_lin := cfg.Kd_lin, Kd_ang := cfg.Kd_ang,
            deadband := cfg.deadband, q_filt := cfg.q_filt, dq_filt := cfg.dq_filt,
            offset_angle := cfg.offset_angle, moment_arm := cfg.moment_arm,
            v_max := cfg.v_max, wrap_tol := cfg.wrap_tol,
            o := ⟨cfg.m_init, cfg.J_init, st.o.b2, st.o.b3⟩ }

/-- Source `activeCallback`: on a rising edge reload the configuration, on a falling edge
reset the controller, then store the new mode flag. -/
def activeCallback (st : Ctrl) (cfg : Config) (msg : Bool) : Ctrl :=
  let st1 := if !st.active && msg then getParams st cfg
             else if st.active && !msg then controllerReset st
             else st
  { st1 with active := msg }

/-- Source controller2.py lines 115-121: `q_err = q - q_des`, and when `|q_err[2]| > π` the
numpy statement `q_err -= 2*np.pi` (resp. `+=`) subtracts the scalar from EVERY component of
the array (scalar broadcasting), not only from the orientation entry. -/
def poseErr (q q_des : Vec3) : Vec3 :=
  let e := q - q_des
  if |e.z| > π then
    (if e.z > 0 then e - ⟨2 * π, 2 * π, 2 * π⟩ else e + ⟨2 * π, 2 * π, 2 * π⟩)
  else e

/-- Source controller2.py lines 89-93: pre-filter unwrap of the raw orientation toward the
current filtered orientation by a single ±2π shift when they differ by more than `2π - wrap_tol`. -/
def preWrapRaw (st : Ctrl) : ℝ :=
  if |st.q.z - st.q_raw.z| > 2 * π - st.wrap_tol then
    (if st.q.z > st.q_raw.z then st.q_raw.z + 2 * π else st.q_raw.z - 2 * π)
  else st.q_raw.z

/-- Source line 94: `q_smoothed = (1 - q_filt) * q_raw + q_filt * q` using the pre-wrapped raw. -/
def smoothedRaw (st : Ctrl) : Vec3 :=
  (1 - st.q_filt) • (⟨st.q_raw.x, st.q_raw.y, preWrapRaw st⟩ : Vec3) + st.q_filt • st.q

/-- Source lines 95-96: the `wrap_angles` call on the orientation entries. -/
def wrapTriple (st : Ctrl) : ℝ × ℝ × ℝ :=
  wrap_angles st.wrap_tol (smoothedRaw st).z st.q.z st.q_prev.z

/-- The filtered pose of this cycle: `q_smoothed` with its orientation entry replaced by the
first component of the `wrap_angles` result. -/
def qFilteredOf (st : Ctrl) : Vec3 := ⟨(smoothedRaw st).x, (smoothedRaw st).y, (wrapTriple st).1⟩

/-- The middle stencil point: `self.q` with its orientation entry replaced by the second
component of the `wrap_angles` result (which is the input value, unchanged). -/
def qStencil1 (st : Ctrl) : Vec3 := ⟨st.q.x, st.q.y, (wrapTriple st).2.1⟩

/-- The oldest stencil point: `self.q_prev` with its orientation entry replaced by the third
component of the `wrap_angles` result. -/
def qStencil2 (st : Ctrl) : Vec3 := ⟨st.q_prev.x, st.q_prev.y, (wrapTriple st).2.2⟩

/-- Source lines 98-99: second-order backward difference over the wrapped stencil, divided by
`2*dt` with `dt = t - state_time`, then clipped to `[-v_max, v_max]`. -/
def dqNewOf (st : Ctrl) (t : ℝ) : Vec3 :=
  Vec3.clip
    (Vec3.sdiv ((3 : ℝ) • qFilteredOf st - (4 : ℝ) • qStencil1 st + qStencil2 st)
      (2 * (t - st.state_time)))
    (-st.v_max) st.v_max

/-- Source line 104: first-order low-pass filter of the velocity estimate. -/
def dqEstOf (st : Ctrl) (t : ℝ) : Vec3 :=
  (1 - st.dq_filt) • dqNewOf st t + st.dq_filt • st.dq

/-- Source line 107: `curr_arm = rot(q[-1]) @ moment_arm` using the freshly filtered pose. -/
def currArmOf (st : Ctrl) : Vec3 := rotMul (qFilteredOf st).z st.moment_arm

/-- Source line 109: contact-point velocity
`v_i = dq + np.array([-dq[-1]*riy, dq[-1]*rix, 0])` with `(rix, riy) = curr_arm[0:2]`. -/
def vContactOf (st : Ctrl) (t : ℝ) : Vec3 :=
  dqEstOf st t + ⟨-(dqEstOf st t).z * (currArmOf st).y, (dqEstOf st t).z * (currArmOf st).x, 0⟩

/-- The estimator part of controller2.py's timer callback (lines 88-112): pre-wrap the raw
orientation, filter, wrap the stencil, difference, clip, filter the velocity, compute the
contact-point velocity, shift the history and update the timestamp. -/
def estimateStep (st : Ctrl) (t : ℝ) : Ctrl :=
  { st with q_raw := ⟨st.q_raw.x, st.q_raw.y, preWrapRaw st⟩,
            q := qFilteredOf st, q_prev := qStencil1 st,
            dq := dqEstOf st t, curr_arm := currArmOf st,
            v_i := vContactOf st t, state_time := t }

/-- Source `Y_o(dq_r, ddq_r)` of controller2.py: `block1h + block1c`, entries copied verbatim. -/
def Y_o (q dq dqr ddqr : Vec3) : Mat34 :=
  let th := q.z
  let dth := dq.z
  let dthr := dqr.z
  let block1h : Mat34 :=
    ⟨ddqr.x, 0, -sin th * ddqr.z, cos th * ddqr.z,
     ddqr.y, 0, -cos th * ddqr.z, -sin th * ddqr.z,
     0, ddqr.z, -sin th * ddqr.x - cos th * ddqr.y, cos th * ddqr.x - sin th * ddqr.y⟩
  let block1c : Mat34 :=
    ⟨0, 0, dth * dthr * cos th, dth * dthr * sin th,
     0, 0, -(dth * dthr * sin th), dth * dthr * cos th,
     0, 0, 0, 0⟩
  Mat34.add block1h block1c

/-- Source `Y_g()` of controller2.py: reads the commanded force `F` and the orientation. -/
def Y_g (F : Vec3) (th : ℝ) : Mat32 :=
  ⟨0, 0,
   0, 0,
   -F.y * cos th - F.x * sin th, -F.y * sin th + F.x * cos th⟩

/-- Source `Y_d(dq_r)` of controller2.py. -/
def Y_d (q dq_r : Vec3) : Mat34 :=
  let th := q.z
  ⟨dq_r.x, dq_r.z * sin th, -(dq_r.z * cos th), 0,
   dq_r.y, dq_r.z * cos th, dq_r.z * sin th, 0,
   0, dq_r.x * sin th + dq_r.y * cos th, dq_r.y * sin th - dq_r.x * cos th, dq_r.z⟩

/-- Source `Y_c()` of controller2.py: componentwise sign of the contact-point velocity with an
epsilon-guarded denominator `v / (|v| + 1e-4)`. -/
def Y_c (q v_i : Vec3) : Mat34 :=
  let th := q.z
  let eps : ℝ := 1 / 10000
  let sx := v_i.x / (|v_i.x| + eps)
  let sy := v_i.y / (|v_i.y| + eps)
  let sw := v_i.z / (|v_i.z| + eps)
  ⟨sx, 0, 0, 0,
   sy, 0, 0, 0,
   0, sx * sin th + sy * cos th, sy * sin th - sx * cos th, sw⟩

/-- Python call semantics for the method `Y_d(self, dq_r)`: a call that supplies the required
positional argument produces the matrix; a call without it raises `TypeError`. -/
def Y_d_invoke (q : Vec3) (arg : Option Vec3) : Except PyErr Mat34 :=
  match arg with
  | none => Except.error PyErr.typeError
  | some dq_r => Except.ok (Y_d q dq_r)

/-- Source lines 135-149: the parameter-derivative computation, explicit Euler step, and
positivity projection of controller2.py (`o_pos_elems = [0,1]`, `g_pos_elems = None`,
`d_pos_elems = [0,3]`, `c_pos_elems = [0,3]`). `Y_g` reads the freshly assigned `F` of `st`. -/
def adaptUpdate (st : Ctrl) (dt : ℝ) (dq_r ddq_r s : Vec3) : Ctrl :=
  let dov := -(diagMul4 st.G_o (Mat34.tmul (Y_o st.q st.dq dq_r ddq_r) s))
  let dgv := -(diagMul2 st.G_g (Mat32.tmul (Y_g st.F st.q.z) s))
  let ddv := -(diagMul4 st.G_d (Mat34.tmul (Y_d st.q dq_r) s))
  let dcv := -(diagMul4 st.G_c (Mat34.tmul (Y_c st.q st.v_i) s))
  let o1 := st.o + dt • dov
  let g1 := st.g + dt • dgv
  let d1 := st.d + dt • ddv
  let c1 := st.c + dt • dcv
  { st with o := ⟨max o1.b0 0, max o1.b1 0, o1.b2, o1.b3⟩,
            g := g1,
            d := ⟨max d1.b0 0, d1.b1, d1.b2, max d1.b3 0⟩,
            c := ⟨max c1.b0 0, c1.b1, c1.b2, max c1.b3 0⟩ }

/-- Source lines 133-149: the dead-zone gate around the adaptation step. -/
def adaptGate (st : Ctrl) (dt : ℝ) (dq_r ddq_r s : Vec3) : Ctrl :=
  if Vec3.norm s > st.deadband then adaptUpdate st dt dq_r ddq_r s else st

/-- Source lines 114-149, the active branch of the timer callback: tracking error, sliding
variable, control law and adaptation. Line 128 evaluates `self.Y_d()` WITHOUT the required
`dq_r` argument (the method signature is `Y_d(self, dq_r)`), which raises `TypeError` before
`self.F` is assigned; the remaining statements are the translation of the code that would run
had the call been well-formed. -/
def activeBranch (st : Ctrl) (dt : ℝ) : Except PyErr Ctrl :=
  let q_err := poseErr st.q st.q_des
  let dq_err := st.dq - st.dq_des
  let s := dq_err + lMul st q_err
  let dq_r := st.dq_des - lMul st q_err
  let ddq_r := st.ddq_des - lMul st dq_err
  match Y_d_invoke st.q none with
  | Except.error e => Except.error e
  | Except.ok Ydm =>
    let F := Mat34.mulVec (Y_o st.q st.dq dq_r ddq_r) st.o + Mat34.mulVec Ydm st.d
      + Mat34.mulVec (Y_c st.q st.v_i) st.c - kdMul st s
    let st2 := { st with F := F, tau := mhatInvMul st.g.g0 st.g.g1 st.q.z F }
    Except.ok (adaptGate st2 dt dq_r ddq_r s)

/-- Observable outcome of one timer tick: the post-tick state, the actuator command published
on `cmd_global` (if any), the parameter estimate published on `param_est` (if any), and whether
an exception escaped the callback. -/
structure CycleOut where
  st : Ctrl
  cmd : Option Vec3
  param : Option (Vec4 × Vec2 × Vec4 × Vec4)
  raised : Bool

/-- Source `controllerCallback` of controller2.py. On the first tick (`state_time == -1`) only
the timestamp is initialized and the state/parameter messages are published — the actuator
command publish sits inside the `else` branch and does not run. On later ticks the estimator
runs, then the active branch (which raises `TypeError`, skipping every publish) or, when
inactive, the held command `tau` is republished. -/
def controllerCallback (st : Ctrl) (t : ℝ) : CycleOut :=
  if st.state_time = -1 then
    { st := { st with state_time := t }, cmd := none,
      param := some (st.o, st.g, st.d, st.c), raised := false }
  else
    let st1 := estimateStep st t
    if st1.active then
      match activeBranch st1 (t - st.state_time) with
      | Except.error _ => { st := st1, cmd := none, param := none, raised := true }
      | Except.ok st2 =>
        { st := st2, cmd := some st2.tau,
          param := some (st2.o, st2.g, st2.d, st2.c), raised := false }
    else
      { st := st1, cmd := some st1.tau,
        param := some (st1.o, st1.g, st1.d, st1.c), raised := false }

/-- Source `__init__` of controller2.py: `controllerReset`, `getParams`, inactive mode, all
kinematic state zero, `state_time = -1`. -/
def initCtrl (cfg : Config) : Ctrl :=
  let base : Ctrl :=
    { active := false, q := Vec3.zero, q_raw := Vec3.zero, q_prev := Vec3.zero,
      dq := Vec3.zero, q_des := Vec3.zero, dq_des := Vec3.zero, ddq_des := Vec3.zero,
      tau := Vec3.zero, F := Vec3.zero, curr_arm := Vec3.zero, v_i := Vec3.zero,
      state_time := -1, o := Vec4.zero, g := Vec2.zero, d := Vec4.zero, c := Vec4.zero,
      G_o := Vec4.zero, G_g := Vec2.zero, G_d := Vec4.zero, G_c := Vec4.zero,
      L_lin := 0, L_ang := 0, Kd_lin := 0, Kd_ang := 0, deadband := 0,
      q_filt := 0, dq_filt := 0, offset_angle := 0, moment_arm := Vec3.zero,
      v_max := 0, wrap_tol := 0 }
  getParams (controllerReset base) cfg

/-- Modelled from the spec's words for claim comparison: the second-order backward finite
difference `(3*q_filtered - 4*q_prev + q_prev2) / (2*dt)`. -/
def backwardDiff2 (qf qp qp2 : Vec3) (dt : ℝ) : Vec3 :=
  Vec3.sdiv ((3 : ℝ) • qf - (4 : ℝ) • qp + qp2) (2 * dt)

/-- Modelled from the spec's words for claim comparison: the standard planar rotation matrix
for angle θ, `[[cos θ, -sin θ], [sin θ, cos θ]]` (identity on the third coordinate), applied
to a vector. -/
def stdRot (th : ℝ) (v : Vec3) : Vec3 :=
  ⟨cos th * v.x - sin th * v.y, sin th * v.x + cos th * v.y, v.z⟩

/-- Modelled from the spec's words for claim comparison: the contact-point velocity
`dq + θ_dot * (-r_y, r_x, 0)` with `(r_x, r_y)` the moment arm rotated by the standard
rotation matrix for the current orientation. -/
def specContactVel (th : ℝ) (dq arm : Vec3) : Vec3 :=
  dq + dq.z • (⟨-(stdRot th arm).y, (stdRot th arm).x, 0⟩ : Vec3)

/-- Mutable state of controller.py's `AdaptiveController` (the basic, 10-parameter variant). -/
structure CtrlB where
  active : Bool
  q : Vec3
  q_prev : Vec3
  dq : Vec3
  q_des : Vec3
  dq_des : Vec3
  ddq_des : Vec3
  F : Vec3
  tau : Vec3
  a_hat : Fin 10 → ℝ
  L : ℝ
  Kd_lin : ℝ
  Kd_ang : ℝ
  Gamma : ℝ
  deadband : ℝ
  q_filt : ℝ
  dq_filt : ℝ
  state_time : ℝ
  wrap_tol : ℝ

/-- Source controller.py `Kd @ v` with `Kd = diag(Kd_lin, Kd_lin, Kd_ang)`. -/
def kdMulB (st : CtrlB) (v : Vec3) : Vec3 :=
  ⟨st.Kd_lin * v.x, st.Kd_lin * v.y, st.Kd_ang * v.z⟩

/-- Source controller.py `Y()`: `concatenate((block1h + block1c, block2, zeros(3,2)), axis=1)`,
entries copied verbatim (note `block1c` here has no trigonometric factors). -/
def Yb (st : CtrlB) : Fin 3 → Fin 10 → ℝ :=
  let th := st.q.z
  let dth := st.dq.z
  let dthr := st.dq_des.z
  ![![st.ddq_des.x, 0, -sin th * st.ddq_des.z + dth * dthr, cos th * st.ddq_des.z,
      st.dq_des.x, sin th * dthr, -(cos th * dthr), 0, 0, 0],
    ![st.ddq_des.y, 0, -(cos th * st.ddq_des.z), -sin th * st.ddq_des.z + dth * dthr,
      st.dq_des.y, cos th * dthr, sin th * dthr, 0, 0, 0],
    ![0, st.ddq_des.z, -sin th * st.ddq_des.x - cos th * st.ddq_des.y,
      cos th * st.ddq_des.x - sin th * st.ddq_des.y, 0,
      sin th * st.dq_des.x + cos th * st.dq_des.y,
      -(cos th * st.dq_des.x) + sin th * st.dq_des.y, dthr, 0, 0]]

/-- Source controller.py `Z()`: `concatenate((zeros(3,8), block), axis=1)` where only the last
row of `block` is nonzero and reads the commanded force `F`. -/
def Zb (st : CtrlB) : Fin 3 → Fin 10 → ℝ :=
  let th := st.q.z
  ![![0, 0, 0, 0, 0, 0, 0, 0, 0, 0],
    ![0, 0, 0, 0, 0, 0, 0, 0, 0, 0],
    ![0, 0, 0, 0, 0, 0, 0, 0, -(sin th * st.F.x + cos th * st.F.y),
      cos th * st.F.x - sin th * st.F.y]]

/-- Product of a 3×10 matrix with the parameter 10-vector. -/
def matVec10 (M : Fin 3 → Fin 10 → ℝ) (a : Fin 10 → ℝ) : Vec3 :=
  ⟨Finset.univ.sum (fun j => M 0 j * a j),
   Finset.univ.sum (fun j => M 1 j * a j),
   Finset.univ.sum (fun j => M 2 j * a j)⟩

/-- Source controller.py line 78: `Gamma @ (Y() + Z()).T @ s` with `Gamma = Gamma*eye(10)`. -/
def aDotB (st : CtrlB) (s : Vec3) : Fin 10 → ℝ :=
  fun j => st.Gamma * ((Yb st 0 j + Zb st 0 j) * s.x + (Yb st 1 j + Zb st 1 j) * s.y
    + (Yb st 2 j + Zb st 2 j) * s.z)

/-- Source controller.py lines 83-85: positivity projection at `pos_elems = [0, 1, 4, 7]`. -/
def projB (u : Fin 10 → ℝ) : Fin 10 → ℝ :=
  fun j => if j = 0 ∨ j = 1 ∨ j = 4 ∨ j = 7 then max (u j) 0 else u j

/-- Source controller.py lines 78-85: Euler step of the parameter estimate followed by the
positivity projection (`Z` reads the freshly assigned `F` of `st`). -/
def adaptStepB (st : CtrlB) (dt : ℝ) (s : Vec3) : CtrlB :=
  { st with a_hat := projB (fun j => st.a_hat j - dt * aDotB st s j) }

/-- Source controller.py sliding variable: `s = (dq - dq_des) + L @ (q - q_des)` with
`L = L*eye(3)`. -/
def slidingB (st : CtrlB) : Vec3 := (st.dq - st.dq_des) + st.L • (st.q - st.q_des)

/-- Source `controllerCallback` of controller.py: when active, compute the control law and,
above the dead-zone, the adaptation step; in every case publish the (possibly held) command. -/
def controllerCallbackB (st : CtrlB) (t_cur t_last : ℝ) : CtrlB × Vec3 :=
  if st.active then
    let dt := t_cur - t_last
    let s := slidingB st
    let F := matVec10 (Yb st) st.a_hat - kdMulB st s
    let st1 := { st with F := F, tau := mhatInvMul (st.a_hat 8) (st.a_hat 9) st.q.z F }
    let st2 := if Vec3.norm s > st.deadband then adaptStepB st1 dt s else st1
    (st2, st2.tau)
  else (st, st.tau)

/-- A concrete all-zero configuration, used by the closed witnesses and counterexamples. -/
def cfg0 : Config :=
  { o_mags := Vec4.zero, g_mags := Vec2.zero, d_mags := Vec4.zero, c_mags := Vec4.zero,
    L_lin := 0, L_ang := 0, Kd_lin := 0, Kd_ang := 0, Gamma := 0, deadband := 0,
    q_filt := 0, dq_filt := 0, offset_angle := 0, moment_arm := Vec3.zero,
    v_max := 0, m_init := 0, J_init := 0, wrap_tol := 0 }

/-- A concrete configuration carrying the default seeds `m_init = J_init = 15` of the source. -/
def cfgSeed : Config :=
  { cfg0 with m_init := 15, J_init := 15 }

/-- A concrete idle controller state with an established timestamp. -/
def stIdle : Ctrl :=
  { initCtrl cfg0 with state_time := 0, deadband := 1, v_max := 5, wrap_tol := 1 }

/-- Concrete state for the unwrap counterexample: raw orientation 100 radians away from the
current filtered orientation, no smoothing, tolerance 1/10. -/
def stC5 : Ctrl :=
  { initCtrl cfg0 with state_time := 0, q_raw := ⟨0, 0, 100⟩, v_max := 1000,
                       wrap_tol := 1 / 10 }

/-- Concrete state for the contact-velocity counterexample: constant pose at orientation π/2,
unit moment arm along x, previous angular rate 1 halved by the velocity filter. -/
def stC9 : Ctrl :=
  { initCtrl cfg0 with state_time := 0, q := ⟨0, 0, π / 2⟩, q_raw := ⟨0, 0, π / 2⟩,
                       q_prev := ⟨0, 0, π / 2⟩, dq := ⟨0, 0, 1⟩, dq_filt := 1 / 2,
                       moment_arm := ⟨1, 0, 0⟩, v_max := 1000, wrap_tol := 1 / 10 }

/-- A concrete controller state that is currently active. -/
def stActive : Ctrl := { initCtrl cfg0 with active := true }

/-- A concrete active state of the basic controller, at zero tracking error, deadband 1. -/
def stB0 : CtrlB :=
  { active := true, q := Vec3.zero, q_prev := Vec3.zero, dq := Vec3.zero,
    q_des := Vec3.zero, dq_des := Vec3.zero, ddq_des := Vec3.zero,
    F := Vec3.zero, tau := Vec3.zero, a_hat := fun _ => 0,
    L := 1, Kd_lin := 0, Kd_ang := 0, Gamma := 1, deadband := 1,
    q_filt := 0, dq_filt := 0, state_time := 0, wrap_tol := 1 / 10 }

/-- Two planar vectors with equal components are equal. -/
theorem Vec3.ext3 {a b : Vec3} (hx : a.x = b.x) (hy : a.y = b.y) (hz : a.z = b.z) : a = b := by
  cases a; cases b; simp_all

@[simp] theorem v3_add_x (a b : Vec3) : (a + b).x = a.x + b.x := rfl

@[simp] theorem v3_add_y (a b : Vec3) : (a + b).y = a.y + b.y := rfl

@[simp] theorem v3_add_z (a b : Vec3) : (a + b).z = a.z + b.z := rfl

@[simp] theorem v3_sub_x (a b : Vec3) : (a - b).x = a.x - b.x := rfl

@[simp] theorem v3_sub_y (a b : Vec3) : (a - b).y = a.y - b.y := rfl

@[simp] theorem v3_sub_z (a b : Vec3) : (a - b).z = a.z - b.z := rfl

@[simp] theorem v3_smul_x (r : ℝ) (v : Vec3) : (r • v).x = r * v.x := rfl

@[simp] theorem v3_smul_y (r : ℝ) (v : Vec3) : (r • v).y = r * v.y := rfl

@[simp] theorem v3_smul_z (r : ℝ) (v : Vec3) : (r • v).z = r * v.z := rfl

@[simp] theorem v3_sdiv_x (v : Vec3) (r : ℝ) : (v.sdiv r).x = v.x / r := rfl

@[simp] theorem v3_sdiv_y (v : Vec3) (r : ℝ) : (v.sdiv r).y = v.y / r := rfl

@[simp] theorem v3_sdiv_z (v : Vec3) (r : ℝ) : (v.sdiv r).z = v.z / r := rfl

@[simp] theorem v3_clip_x (v : Vec3) (lo hi : ℝ) : (v.clip lo hi).x = min (max v.x lo) hi := rfl

@[simp] theorem v3_clip_y (v : Vec3) (lo hi : ℝ) : (v.clip lo hi).y = min (max v.y lo) hi := rfl

@[simp] theorem v3_clip_z (v : Vec3) (lo hi : ℝ) : (v.clip lo hi).z = min (max v.z lo) hi := rfl

@[simp] theorem v3_zero_x : Vec3.zero.x = 0 := rfl

@[simp] theorem v3_zero_y : Vec3.zero.y = 0 := rfl

@[simp] theorem v3_zero_z : Vec3.zero.z = 0 := rfl

@[simp] theorem v3_mk_x (a b c : ℝ) : (Vec3.mk a b c).x = a := rfl

@[simp] theorem v3_mk_y (a b c : ℝ) : (Vec3.mk a b c).y = b := rfl

@[simp] theorem v3_mk_z (a b c : ℝ) : (Vec3.mk a b c).z = c := rfl

/-- The middle component returned by `wrap_angles` is the input `z_curr`, unchanged. -/
theorem wrap_angles_curr (tol a b c : ℝ) : (wrap_angles tol a b c).2.1 = b := rfl

/-- The active branch of controller2.py always raises: the `self.Y_d()` call on line 128 omits
the required `dq_r` argument. -/
theorem activeBranch_err (st : Ctrl) (dt : ℝ) :
    activeBranch st dt = Except.error PyErr.typeError := rfl

@[simp] theorem estimateStep_active (st : Ctrl) (t : ℝ) :
    (estimateStep st t).active = st.active := rfl

@[simp] theorem estimateStep_q (st : Ctrl) (t : ℝ) :
    (estimateStep st t).q = qFilteredOf st := rfl

@[simp] theorem estimateStep_q_prev (st : Ctrl) (t : ℝ) :
    (estimateStep st t).q_prev = qStencil1 st := rfl

@[simp] theorem estimateStep_dq (st : Ctrl) (t : ℝ) :
    (estimateStep st t).dq = dqEstOf st t := rfl

@[simp] theorem estimateStep_v_i (st : Ctrl) (t : ℝ) :
    (estimateStep st t).v_i = vContactOf st t := rfl

@[simp] theorem estimateStep_tau (st : Ctrl) (t : ℝ) :
    (estimateStep st t).tau = st.tau := rfl

@[simp] theorem estimateStep_F (st : Ctrl) (t : ℝ) :
    (estimateStep st t).F = st.F := rfl

@[simp] theorem estimateStep_o (st : Ctrl) (t : ℝ) : (estimateStep st t).o = st.o := rfl

@[simp] theorem estimateStep_g (st : Ctrl) (t : ℝ) : (estimateStep st t).g = st.g := rfl

@[simp] theorem estimateStep_d (st : Ctrl) (t : ℝ) : (estimateStep st t).d = st.d := rfl

@[simp] theorem estimateStep_c (st : Ctrl) (t : ℝ) : (estimateStep st t).c = st.c := rfl

/-- On every tick after the first, the post-tick state is exactly the estimator update:
when inactive nothing else touches the state, and when active the control law raises
`TypeError` before any further assignment. -/
theorem cycle_st_eq (st : Ctrl) (t : ℝ) (h : ¬ st.state_time = -1) :
    (controllerCallback st t).st = estimateStep st t := by
  unfold controllerCallback
  rw [if_neg h]
  cases hA : (estimateStep st t).active <;>
    simp only [hA, activeBranch_err, Bool.false_eq_true, if_false, if_true]

/-- C1: the claim says the control-law computation of F and tau completes without raising on
every active cycle; in fact controller2.py line 128 invokes `self.Y_d()` without the required
`dq_r` argument, so the active branch raises `TypeError` for EVERY input state. -/
theorem control_law_always_raises (st : Ctrl) (dt : ℝ) :
    activeBranch st dt = Except.error PyErr.typeError := rfl

/-- C2: the shortest-path correction of the pose error is applied by numpy scalar broadcasting
(`q_err -= 2*np.pi`), so at `q = (0,0,4)`, `q_des = (0,0,0)` the x and y components of the pose
error are shifted by -2π instead of staying 0, while the orientation becomes `4 - 2π`. -/
theorem pose_err_correction_shifts_xy :
    (poseErr ⟨0, 0, 4⟩ ⟨0, 0, 0⟩).x ≠ 0 ∧ (poseErr ⟨0, 0, 4⟩ ⟨0, 0, 0⟩).y ≠ 0 ∧
    (poseErr ⟨0, 0, 4⟩ ⟨0, 0, 0⟩).z = 4 - 2 * π := by
  have hπ : π < 3.15 := pi_lt_d2
  have hπ0 : (0 : ℝ) < π := pi_pos
  have he : ((⟨0, 0, 4⟩ : Vec3) - ⟨0, 0, 0⟩) = ⟨0, 0, 4⟩ := by
    apply Vec3.ext3 <;> simp
  have hcond : |((⟨0, 0, 4⟩ : Vec3) - ⟨0, 0, 0⟩).z| > π := by
    rw [he]; simp only [v3_mk_z]
    rw [abs_of_nonneg (by norm_num)]; linarith
  have hres : poseErr ⟨0, 0, 4⟩ ⟨0, 0, 0⟩
      = ((⟨0, 0, 4⟩ : Vec3) - ⟨0, 0, 0⟩) - ⟨2 * π, 2 * π, 2 * π⟩ := by
    unfold poseErr
    rw [if_pos hcond, if_pos (by rw [he]; simp only [v3_mk_z]; norm_num)]
  rw [hres, he]
  refine ⟨?_, ?_, ?_⟩ <;> simp only [v3_sub_x, v3_sub_y, v3_sub_z, v3_mk_x, v3_mk_y, v3_mk_z]
  · intro hc; nlinarith
  · intro hc; nlinarith

/-- C6: after every adaptation step, every parameter component flagged in its group's
positivity mask is nonnegative — in controller2.py the masked indices are `o[0], o[1]`,
`d[0], d[3]`, `c[0], c[3]` (no mask on `g`), for every state, gain matrix, regressor value
and sliding-variable value; in controller.py they are `a_hat[0], a_hat[1], a_hat[4], a_hat[7]`. -/
theorem adaptation_projection_nonneg :
    (∀ (st : Ctrl) (dt : ℝ) (dq_r ddq_r s : Vec3),
      0 ≤ (adaptUpdate st dt dq_r ddq_r s).o.b0 ∧ 0 ≤ (adaptUpdate st dt dq_r ddq_r s).o.b1 ∧
      0 ≤ (adaptUpdate st dt dq_r ddq_r s).d.b0 ∧ 0 ≤ (adaptUpdate st dt dq_r ddq_r s).d.b3 ∧
      0 ≤ (adaptUpdate st dt dq_r ddq_r s).c.b0 ∧ 0 ≤ (adaptUpdate st dt dq_r ddq_r s).c.b3) ∧
    (∀ (st : CtrlB) (dt : ℝ) (s : Vec3),
      0 ≤ (adaptStepB st dt s).a_hat 0 ∧ 0 ≤ (adaptStepB st dt s).a_hat 1 ∧
      0 ≤ (adaptStepB st dt s).a_hat 4 ∧ 0 ≤ (adaptStepB st dt s).a_hat 7) := by
  constructor
  · intro st dt dq_r ddq_r s
    simp only [adaptUpdate]
    exact ⟨le_max_right _ _, le_max_right _ _, le_max_right _ _, le_max_right _ _,
      le_max_right _ _, le_max_right _ _⟩
  · intro st dt s
    simp only [adaptStepB, projB]
    norm_num

/-- C7: when the sliding-variable norm does not exceed the configured dead-zone, a cycle leaves
every parameter component unchanged: in controller.py the full timer callback keeps `a_hat`,
and in controller2.py the gated adaptation block keeps all four parameter groups. -/
theorem deadzone_freezes_parameters :
    (∀ (st : CtrlB) (tc tl : ℝ), Vec3.norm (slidingB st) ≤ st.deadband →
      (controllerCallbackB st tc tl).1.a_hat = st.a_hat) ∧
    (∀ (st : Ctrl) (dt : ℝ) (dq_r ddq_r s : Vec3), Vec3.norm s ≤ st.deadband →
      (adaptGate st dt dq_r ddq_r s).o = st.o ∧ (adaptGate st dt dq_r ddq_r s).g = st.g ∧
      (adaptGate st dt dq_r ddq_r s).d = st.d ∧ (adaptGate st dt dq_r ddq_r s).c = st.c) := by
  constructor
  · intro st tc tl h
    unfold controllerCallbackB
    cases hA : st.active
    · simp only [Bool.false_eq_true, if_false]
    · simp only [if_true]
      rw [if_neg (not_lt.mpr h)]
  · intro st dt dq_r ddq_r s h
    unfold adaptGate
    rw [if_neg (not_lt.mpr h)]
    exact ⟨rfl, rfl, rfl, rfl⟩

/-- Witness for the dead-zone theorem at a concrete state with zero tracking error. -/
theorem deadzone_freezes_parameters_witness :
    (controllerCallbackB stB0 1 0).1.a_hat = stB0.a_hat :=
  deadzone_freezes_parameters.1 stB0 1 0 (by
    have hs : slidingB stB0 = Vec3.zero := by
      apply Vec3.ext3 <;> simp [slidingB, stB0]
    rw [hs]
    have hn : Vec3.norm Vec3.zero = 0 := by simp [Vec3.norm]
    rw [hn]
    norm_num [stB0])

/-- C3 counterexample: an Inactive→Active transition does NOT leave every parameter component
unchanged — `getParams` writes the configured seed `m_init = 15` into `o[0]`, which was 0. -/
theorem activation_overwrites_inertial_seed :
    (activeCallback (initCtrl cfg0) cfgSeed true).o.b0 ≠ (initCtrl cfg0).o.b0 := by
  have h1 : (activeCallback (initCtrl cfg0) cfgSeed true).o.b0 = 15 := by
    simp [activeCallback, initCtrl, getParams, controllerReset, cfgSeed, cfg0]
  have h2 : (initCtrl cfg0).o.b0 = 0 := by
    simp [initCtrl, getParams, controllerReset, cfg0]
  rw [h1, h2]; norm_num

/-- C3 amended: an Inactive→Active transition reloads gains/bounds and writes the configured
seeds into the inertial estimates `o[0] := m_init`, `o[1] := J_init`; the velocity estimate,
F, tau, and all remaining parameter components (`o[2]`, `o[3]`, `g`, `d`, `c`) are unchanged. -/
theorem activation_frame_effects (st : Ctrl) (cfg : Config) (h : st.active = false) :
    (activeCallback st cfg true).dq = st.dq ∧ (activeCallback st cfg true).F = st.F ∧
    (activeCallback st cfg true).tau = st.tau ∧
    (activeCallback st cfg true).o = ⟨cfg.m_init, cfg.J_init, st.o.b2, st.o.b3⟩ ∧
    (activeCallback st cfg true).g = st.g ∧ (activeCallback st cfg true).d = st.d ∧
    (activeCallback st cfg true).c = st.c := by
  simp [activeCallback, getParams, h]

/-- Witness for the activation frame-effect theorem at the freshly initialized state. -/
theorem activation_frame_effects_witness :
    (activeCallback (initCtrl cfg0) cfgSeed true).dq = (initCtrl cfg0).dq ∧
    (activeCallback (initCtrl cfg0) cfgSeed true).F = (initCtrl cfg0).F ∧
    (activeCallback (initCtrl cfg0) cfgSeed true).tau = (initCtrl cfg0).tau ∧
    (activeCallback (initCtrl cfg0) cfgSeed true).o
      = ⟨cfgSeed.m_init, cfgSeed.J_init, (initCtrl cfg0).o.b2, (initCtrl cfg0).o.b3⟩ ∧
    (activeCallback (initCtrl cfg0) cfgSeed true).g = (initCtrl cfg0).g ∧
    (activeCallback (initCtrl cfg0) cfgSeed true).d = (initCtrl cfg0).d ∧
    (activeCallback (initCtrl cfg0) cfgSeed true).c = (initCtrl cfg0).c :=
  activation_frame_effects (initCtrl cfg0) cfgSeed rfl

/-- C4 counterexample: the very first timer tick publishes NO actuator command — the
`cmd_pub.publish` call sits inside the `else` branch of the timestamp check. -/
theorem first_tick_publishes_no_command :
    (controllerCallback (initCtrl cfg0) 0).cmd = none := by
  unfold controllerCallback
  have h : (initCtrl cfg0).state_time = -1 := rfl
  rw [if_pos h]

/-- C4 amended: on every tick after the first while the controller is inactive, the actuator
command is published and equals the held `tau`; such a cycle leaves `tau`, `F` and all four
parameter groups unchanged (the first tick publishes no actuator command at all). -/
theorem inactive_tick_republishes_held_command (st : Ctrl) (t : ℝ)
    (h1 : ¬ st.state_time = -1) (h2 : st.active = false) :
    (controllerCallback st t).cmd = some st.tau ∧
    (controllerCallback st t).st.tau = st.tau ∧ (controllerCallback st t).st.F = st.F ∧
    (controllerCallback st t).st.o = st.o ∧ (controllerCallback st t).st.g = st.g ∧
    (controllerCallback st t).st.d = st.d ∧ (controllerCallback st t).st.c = st.c := by
  unfold controllerCallback
  rw [if_neg h1]
  simp only [estimateStep_active, h2, Bool.false_eq_true, if_false, estimateStep_tau,
    estimateStep_F, estimateStep_o, estimateStep_g, estimateStep_d, estimateStep_c]
  simp

/-- Witness for the inactive-tick theorem at a concrete idle state. -/
theorem inactive_tick_republishes_held_command_witness :
    (controllerCallback stIdle 1).cmd = some stIdle.tau ∧
    (controllerCallback stIdle 1).st.tau = stIdle.tau ∧
    (controllerCallback stIdle 1).st.F = stIdle.F ∧
    (controllerCallback stIdle 1).st.o = stIdle.o ∧
    (controllerCallback stIdle 1).st.g = stIdle.g ∧
    (controllerCallback stIdle 1).st.d = stIdle.d ∧
    (controllerCallback stIdle 1).st.c = stIdle.c :=
  inactive_tick_republishes_held_command stIdle 1 (by norm_num [stIdle]) rfl

/-- C10: every Active→Inactive transition zeroes `tau`, `F` and all four parameter groups
(including `o[0]`, `o[1]`, which become 0 rather than the configured seeds); while inactive the
published parameter estimate is all-zero regardless of the configured seeds; the seeds are
written into `o` only by the configuration reload of the next activation. -/
theorem deactivation_resets_to_zero (st : Ctrl) (cfg cfg2 : Config) (h : st.active = true) :
    ((activeCallback st cfg false).tau = Vec3.zero ∧
     (activeCallback st cfg false).F = Vec3.zero ∧
     (activeCallback st cfg false).o = Vec4.zero ∧
     (activeCallback st cfg false).g = Vec2.zero ∧
     (activeCallback st cfg false).d = Vec4.zero ∧
     (activeCallback st cfg false).c = Vec4.zero) ∧
    (∀ t : ℝ, (controllerCallback (activeCallback st cfg false) t).param
        = some (Vec4.zero, Vec2.zero, Vec4.zero, Vec4.zero)) ∧
    ((activeCallback (activeCallback st cfg false) cfg2 true).o.b0 = cfg2.m_init ∧
     (activeCallback (activeCallback st cfg false) cfg2 true).o.b1 = cfg2.J_init) := by
  have hoff : activeCallback st cfg false = { controllerReset st with active := false } := by
    unfold activeCallback
    simp [h]
  have ho : (activeCallback st cfg false).o = Vec4.zero := by rw [hoff]; rfl
  have hg : (activeCallback st cfg false).g = Vec2.zero := by rw [hoff]; rfl
  have hd : (activeCallback st cfg false).d = Vec4.zero := by rw [hoff]; rfl
  have hc : (activeCallback st cfg false).c = Vec4.zero := by rw [hoff]; rfl
  have htau : (activeCallback st cfg false).tau = Vec3.zero := by rw [hoff]; rfl
  have hF : (activeCallback st cfg false).F = Vec3.zero := by rw [hoff]; rfl
  have hact : (activeCallback st cfg false).active = false := by rw [hoff]

  refine ⟨⟨htau, hF, ho, hg, hd, hc⟩, ?_, ?_⟩
  · intro t
    by_cases ht : (activeCallback st cfg false).state_time = -1
    · unfold controllerCallback
      rw [if_pos ht]
      simp only [ho, hg, hd, hc]
    · unfold controllerCallback
      rw [if_neg ht]
      have hA : (estimateStep (activeCallback st cfg false) t).active = false := by
        rw [estimateStep_active, hact]
      simp only [hA, Bool.false_eq_true, if_false, estimateStep_o, estimateStep_g,
        estimateStep_d, estimateStep_c, ho, hg, hd, hc]
  · rw [show activeCallback (activeCallback st cfg false) cfg2 true
        = { getParams (activeCallback st cfg false) cfg2 with active := true } by
      unfold activeCallback
      simp [hact]]
    simp [getParams]

/-- Witness for the deactivation-reset theorem at a concrete active state. -/
theorem deactivation_resets_to_zero_witness :
    (activeCallback stActive cfg0 false).tau = Vec3.zero ∧
    (activeCallback stActive cfg0 false).o = Vec4.zero ∧
    (controllerCallback (activeCallback stActive cfg0 false) 1).param
      = some (Vec4.zero, Vec2.zero, Vec4.zero, Vec4.zero) ∧
    (activeCallback (activeCallback stActive cfg0 false) cfgSeed true).o.b0 = cfgSeed.m_init :=
  ⟨(deactivation_resets_to_zero stActive cfg0 cfgSeed rfl).1.1,
   (deactivation_resets_to_zero stActive cfg0 cfgSeed rfl).1.2.2.1,
   (deactivation_resets_to_zero stActive cfg0 cfgSeed rfl).2.1 1,
   (deactivation_resets_to_zero stActive cfg0 cfgSeed rfl).2.2.1⟩

/-- C8: the velocity estimate is exactly zero after the first control cycle for any measurement
and reference input, and on every later cycle the pre-filter velocity equals the second-order
backward difference of the wrapped three-point stencil divided by `2*dt` (with `dt` the actual
elapsed time since the previous cycle), clipped componentwise to `[-v_max, v_max]`, before the
velocity low-pass filter combines it with the previous estimate. -/
theorem velocity_first_cycle_zero_then_difference
    (cfg : Config) (qr qd dqd ddqd : Vec3) (t : ℝ) (st : Ctrl)
    (h : ¬ st.state_time = -1) :
    (controllerCallback
        { initCtrl cfg with q_raw := qr, q_des := qd, dq_des := dqd, ddq_des := ddqd }
        t).st.dq = Vec3.zero ∧
    (controllerCallback st t).st.dq = (1 - st.dq_filt) • dqNewOf st t + st.dq_filt • st.dq ∧
    dqNewOf st t = Vec3.clip
        (backwardDiff2 (qFilteredOf st) (qStencil1 st) (qStencil2 st) (t - st.state_time))
        (-st.v_max) st.v_max := by
  refine ⟨?_, ?_, rfl⟩
  · have h0 : ({ initCtrl cfg with q_raw := qr, q_des := qd, dq_des := dqd, ddq_des := ddqd } : Ctrl).state_time = -1 := rfl
    unfold controllerCallback
    rw [if_pos h0]
    rfl
  · rw [cycle_st_eq st t h, estimateStep_dq]
    rfl

/-- Witness for the velocity-estimate theorem at the initial state and at a concrete idle
state with an established timestamp. -/
theorem velocity_first_cycle_zero_then_difference_witness :
    (controllerCallback { initCtrl cfg0 with q_raw := Vec3.zero, q_des := Vec3.zero, dq_des := Vec3.zero, ddq_des := Vec3.zero } 1).st.dq = Vec3.zero ∧
    (controllerCallback stIdle 1).st.dq
      = (1 - stIdle.dq_filt) • dqNewOf stIdle 1 + stIdle.dq_filt • stIdle.dq ∧
    dqNewOf stIdle 1 = Vec3.clip
        (backwardDiff2 (qFilteredOf stIdle) (qStencil1 stIdle) (qStencil2 stIdle)
          (1 - stIdle.state_time))
        (-stIdle.v_max) stIdle.v_max :=
  velocity_first_cycle_zero_then_difference cfg0 Vec3.zero Vec3.zero Vec3.zero Vec3.zero 1
    stIdle (by norm_num [stIdle])

/-- C9 (amended): every cycle after the first, the contact-point velocity equals the estimated
velocity `dq` plus `θ_dot * (-r_y, r_x, 0)`, where `(r_x, r_y)` is the configured moment arm
transformed by the source's `rot(θ)` — which is the rotation matrix for angle `-θ` (the
TRANSPOSE of the standard rotation matrix for θ), not the standard matrix itself. -/
theorem contact_velocity_uses_transposed_rotation (st : Ctrl) (t : ℝ)
    (h : ¬ st.state_time = -1) :
    (controllerCallback st t).st.v_i
      = (controllerCallback st t).st.dq + (controllerCallback st t).st.dq.z •
          (⟨-(rotMul (controllerCallback st t).st.q.z st.moment_arm).y,
            (rotMul (controllerCallback st t).st.q.z st.moment_arm).x, 0⟩ : Vec3) ∧
    (∀ (a : ℝ) (v : Vec3), rotMul a v = stdRot (-a) v) := by
  constructor
  · rw [cycle_st_eq st t h, estimateStep_v_i, estimateStep_dq, estimateStep_q]
    unfold vContactOf currArmOf
    apply Vec3.ext3 <;> simp
  · intro a v
    unfold rotMul stdRot
    apply Vec3.ext3 <;> simp [Real.cos_neg, Real.sin_neg]

/-- Witness for the contact-velocity theorem at a concrete idle state. -/
theorem contact_velocity_uses_transposed_rotation_witness :
    (controllerCallback stIdle 1).st.v_i
      = (controllerCallback stIdle 1).st.dq + (controllerCallback stIdle 1).st.dq.z •
          (⟨-(rotMul (controllerCallback stIdle 1).st.q.z stIdle.moment_arm).y,
            (rotMul (controllerCallback stIdle 1).st.q.z stIdle.moment_arm).x, 0⟩ : Vec3) :=
  (contact_velocity_uses_transposed_rotation stIdle 1 (by norm_num [stIdle])).1

/-- C5 (amended): after the unwrap correction of a cycle, the stored orientation and its stored
predecessor differ by at most `2π - wrap_tol` PROVIDED the raw orientation entered the cycle
within `6π - wrap_tol` of the current filtered orientation (with the tolerance in `(0, π]` and
the position filter coefficient in `[0, 1]`); for arbitrary raw inputs the single ±2π shift is
not sufficient and the bound can fail. -/
theorem unwrap_keeps_orientation_close (st : Ctrl) (t : ℝ)
    (hst : ¬ st.state_time = -1) (h0 : 0 < st.wrap_tol) (hp : st.wrap_tol ≤ π)
    (hf0 : 0 ≤ st.q_filt) (hf1 : st.q_filt ≤ 1)
    (hraw : |st.q_raw.z - st.q.z| ≤ 6 * π - st.wrap_tol) :
    |(controllerCallback st t).st.q.z - (controllerCallback st t).st.q_prev.z|
      ≤ 2 * π - st.wrap_tol := by
  have hpi : (0 : ℝ) < π := pi_pos
  have hA : |preWrapRaw st - st.q.z| ≤ 4 * π - st.wrap_tol := by
    unfold preWrapRaw
    by_cases hcond : |st.q.z - st.q_raw.z| > 2 * π - st.wrap_tol
    · rw [if_pos hcond]
      by_cases hdir : st.q.z > st.q_raw.z
      · rw [if_pos hdir]
        rw [abs_of_pos (by linarith)] at hcond
        have hup : st.q.z - st.q_raw.z ≤ 6 * π - st.wrap_tol := by
          have h6 := (abs_le.mp hraw).1
          linarith
        rw [abs_le]
        constructor <;> linarith
      · rw [if_neg hdir]
        push_neg at hdir
        rw [abs_of_nonpos (by linarith)] at hcond
        have hup : st.q_raw.z - st.q.z ≤ 6 * π - st.wrap_tol := (abs_le.mp hraw).2
        rw [abs_le]
        constructor <;> linarith
    · rw [if_neg hcond]
      push_neg at hcond
      rw [abs_sub_comm] at hcond
      linarith
  have hz : (smoothedRaw st).z = (1 - st.q_filt) * preWrapRaw st + st.q_filt * st.q.z := by
    simp [smoothedRaw]
  have hB : |(smoothedRaw st).z - st.q.z| ≤ 4 * π - st.wrap_tol := by
    rw [hz]
    have hfac : (1 - st.q_filt) * preWrapRaw st + st.q_filt * st.q.z - st.q.z
        = (1 - st.q_filt) * (preWrapRaw st - st.q.z) := by ring
    rw [hfac, abs_mul, abs_of_nonneg (by linarith : (0:ℝ) ≤ 1 - st.q_filt)]
    calc (1 - st.q_filt) * |preWrapRaw st - st.q.z|
        ≤ 1 * |preWrapRaw st - st.q.z| :=
          mul_le_mul_of_nonneg_right (by linarith) (abs_nonneg _)
      _ = |preWrapRaw st - st.q.z| := one_mul _
      _ ≤ 4 * π - st.wrap_tol := hA
  have hC : |(wrapTriple st).1 - st.q.z| ≤ 2 * π - st.wrap_tol := by
    have h1 : (wrapTriple st).1
        = if |(smoothedRaw st).z - st.q.z| ≥ 2 * π - st.wrap_tol then
            (if (smoothedRaw st).z < st.q.z then (smoothedRaw st).z + 2 * π
             else (smoothedRaw st).z - 2 * π)
          else (smoothedRaw st).z := rfl
    rw [h1]
    by_cases hcond : |(smoothedRaw st).z - st.q.z| ≥ 2 * π - st.wrap_tol
    · rw [if_pos hcond]
      have hBu := (abs_le.mp hB).1
      have hBv := (abs_le.mp hB).2
      by_cases hdir : (smoothedRaw st).z < st.q.z
      · rw [if_pos hdir]
        rw [abs_of_nonpos (by linarith)] at hcond
        rw [abs_le]
        constructor <;> linarith
      · rw [if_neg hdir]
        push_neg at hdir
        rw [abs_of_nonneg (by linarith)] at hcond
        rw [abs_le]
        constructor <;> linarith
    · rw [if_neg hcond]
      push_neg at hcond
      linarith
  rw [cycle_st_eq st t hst, estimateStep_q, estimateStep_q_prev]
  have e1 : (qFilteredOf st).z = (wrapTriple st).1 := rfl
  have e2 : (qStencil1 st).z = st.q.z := rfl
  rw [e1, e2]
  exact hC

/-- Witness for the unwrap-invariant theorem at a concrete idle state. -/
theorem unwrap_keeps_orientation_close_witness :
    |(controllerCallback stIdle 1).st.q.z - (controllerCallback stIdle 1).st.q_prev.z|
      ≤ 2 * π - stIdle.wrap_tol :=
  unwrap_keeps_orientation_close stIdle 1 (by norm_num [stIdle])
    (by norm_num [stIdle]) (by norm_num [stIdle]; nlinarith [pi_gt_three])
    (by norm_num [stIdle, initCtrl, getParams, controllerReset, cfg0])
    (by norm_num [stIdle, initCtrl, getParams, controllerReset, cfg0])
    (by norm_num [stIdle, initCtrl, getParams, controllerReset, cfg0]
        nlinarith [pi_gt_three])

/-- C5 counterexample: with the raw orientation 100 radians away from the current orientation
(tolerance 1/10, no smoothing), the single ±2π pre-shift plus the single ±2π `wrap_angles`
shift leave the stored orientation `100 - 4π` while its stored predecessor is 0, so they differ
by far more than `2π - wrap_tol`: the claimed invariant fails for this raw-input sequence. -/
theorem unwrap_single_shift_insufficient :
    ¬ (|(controllerCallback stC5 1).st.q.z - (controllerCallback stC5 1).st.q_prev.z|
        ≤ 2 * π - stC5.wrap_tol) := by
  have h3 : (3 : ℝ) < π := pi_gt_three
  have h315 : π < 3.15 := pi_lt_d2
  have hqz : stC5.q.z = 0 := rfl
  have hqrz : stC5.q_raw.z = 100 := rfl
  have hwt : stC5.wrap_tol = 1 / 10 := rfl
  have hpre : preWrapRaw stC5 = 100 - 2 * π := by
    unfold preWrapRaw
    rw [hqz, hqrz, hwt]
    rw [if_pos (by rw [zero_sub, abs_neg, abs_of_nonneg (by norm_num)]; nlinarith)]
    rw [if_neg (by norm_num)]
  have hsm : (smoothedRaw stC5).z = 100 - 2 * π := by
    have hfilt : stC5.q_filt = 0 := rfl
    simp [smoothedRaw, hfilt, hpre, hqz]
  have hwrap : (wrapTriple stC5).1 = 100 - 4 * π := by
    have h1 : (wrapTriple stC5).1
        = if |(smoothedRaw stC5).z - stC5.q.z| ≥ 2 * π - stC5.wrap_tol then
            (if (smoothedRaw stC5).z < stC5.q.z then (smoothedRaw stC5).z + 2 * π
             else (smoothedRaw stC5).z - 2 * π)
          else (smoothedRaw stC5).z := rfl
    rw [h1, hsm, hqz, hwt]
    rw [if_pos (by rw [sub_zero, abs_of_nonneg (by nlinarith)]; nlinarith)]
    rw [if_neg (by nlinarith)]
    ring
  have e1 : (controllerCallback stC5 1).st.q.z = (wrapTriple stC5).1 := by
    rw [cycle_st_eq stC5 1 (by norm_num [stC5]), estimateStep_q]
    rfl
  have e2 : (controllerCallback stC5 1).st.q_prev.z = stC5.q.z := by
    rw [cycle_st_eq stC5 1 (by norm_num [stC5]), estimateStep_q_prev]
    rfl
  rw [e1, e2, hwrap, hqz, hwt, sub_zero]
  rw [abs_of_nonneg (by nlinarith)]
  push_neg
  nlinarith

/-- C9 counterexample: at orientation π/2 with moment arm (1,0,0) and angular rate 1/2 the
cycle's contact-point velocity is `(1/2, 0, 1/2)`, while the claim's formula, which rotates the
moment arm by the STANDARD rotation matrix for θ, gives `(-1/2, 0, 1/2)`. -/
theorem contact_velocity_standard_rotation_fails :
    (controllerCallback stC9 1).st.v_i
      ≠ specContactVel (controllerCallback stC9 1).st.q.z (controllerCallback stC9 1).st.dq
          stC9.moment_arm := by
  have h3 : (3 : ℝ) < π := pi_gt_three
  have hqz : stC9.q.z = π / 2 := rfl
  have hwt : stC9.wrap_tol = 1 / 10 := rfl
  have hnotime : ¬ stC9.state_time = -1 := by norm_num [stC9]
  have hpre : preWrapRaw stC9 = π / 2 := by
    unfold preWrapRaw
    rw [hqz, hwt]
    have hraw : stC9.q_raw.z = π / 2 := rfl
    rw [hraw, sub_self, abs_zero]
    rw [if_neg (by intro hc; nlinarith)]
  have hsm : smoothedRaw stC9 = ⟨0, 0, π / 2⟩ := by
    have hfilt : stC9.q_filt = 0 := rfl
    have hrx : stC9.q_raw.x = 0 := rfl
    have hry : stC9.q_raw.y = 0 := rfl
    have hqx : stC9.q.x = 0 := rfl
    have hqy : stC9.q.y = 0 := rfl
    apply Vec3.ext3 <;> simp [smoothedRaw, hfilt, hpre, hrx, hry, hqx, hqy]
  have hwrap : wrapTriple stC9 = (π / 2, π / 2, π / 2) := by
    have h1 : wrapTriple stC9
        = wrap_angles stC9.wrap_tol (smoothedRaw stC9).z stC9.q.z stC9.q_prev.z := rfl
    have hprev : stC9.q_prev.z = π / 2 := rfl
    rw [h1, hsm, hqz, hwt, hprev]
    unfold wrap_angles
    rw [if_neg (by simp only [v3_mk_z, sub_self, abs_zero]; intro hc; nlinarith)]
  have hqf : qFilteredOf stC9 = ⟨0, 0, π / 2⟩ := by
    unfold qFilteredOf
    rw [hsm, hwrap]
  have hq1 : qStencil1 stC9 = ⟨0, 0, π / 2⟩ := by
    unfold qStencil1
    rw [hwrap]
    rfl
  have hq2 : qStencil2 stC9 = ⟨0, 0, π / 2⟩ := by
    unfold qStencil2
    rw [hwrap]
    rfl
  have hdqnew : dqNewOf stC9 1 = ⟨0, 0, 0⟩ := by
    unfold dqNewOf
    rw [hqf, hq1, hq2]
    have hvmax : stC9.v_max = 1000 := rfl
    have htime : stC9.state_time = 0 := rfl
    rw [hvmax, htime]
    apply Vec3.ext3
    · simp
    · simp
    · simp
      rw [show (3 * (π / 2) - 4 * (π / 2) + π / 2 : ℝ) = 0 from by ring]
      norm_num
  have hdqe : dqEstOf stC9 1 = ⟨0, 0, 1 / 2⟩ := by
    unfold dqEstOf
    rw [hdqnew]
    have hfilt : stC9.dq_filt = 1 / 2 := rfl
    have hdq : stC9.dq = ⟨0, 0, 1⟩ := rfl
    rw [hfilt, hdq]
    apply Vec3.ext3 <;> simp
  have harm : currArmOf stC9 = ⟨0, -1, 0⟩ := by
    unfold currArmOf
    rw [hqf]
    have hma : stC9.moment_arm = ⟨1, 0, 0⟩ := rfl
    rw [hma]
    unfold rotMul
    apply Vec3.ext3 <;> simp
  have hvi : vContactOf stC9 1 = ⟨1 / 2, 0, 1 / 2⟩ := by
    unfold vContactOf
    rw [hdqe, harm]
    apply Vec3.ext3 <;> simp
  have hL : (controllerCallback stC9 1).st.v_i = ⟨1 / 2, 0, 1 / 2⟩ := by
    rw [cycle_st_eq stC9 1 hnotime, estimateStep_v_i, hvi]
  have hTH : (controllerCallback stC9 1).st.q.z = π / 2 := by
    rw [cycle_st_eq stC9 1 hnotime, estimateStep_q, hqf]
  have hDQ : (controllerCallback stC9 1).st.dq = ⟨0, 0, 1 / 2⟩ := by
    rw [cycle_st_eq stC9 1 hnotime, estimateStep_dq, hdqe]
  have hR : specContactVel (π / 2) (⟨0, 0, 1 / 2⟩ : Vec3) stC9.moment_arm
      = ⟨-(1 / 2), 0, 1 / 2⟩ := by
    have hma : stC9.moment_arm = ⟨1, 0, 0⟩ := rfl
    rw [hma]
    unfold specContactVel stdRot
    apply Vec3.ext3 <;> simp
  rw [hL, hTH, hDQ, hR]
  intro hc
  have hx := congrArg Vec3.x hc
  simp only [v3_mk_x] at hx
  norm_num at hx
